import Mathlib

/-!
Formal model of the form-template builder in src/src/App.js.

The application is a single-page React UI.  Its data lives in three
structures (Field, Section, Template) plus an in-memory answer mapping for
form filling, persisted through the browser key-value store under the keys
"templates" and "form_data_<template-id>".  Every event handler of the
source file is embedded below as a pure function on these structures; the
uuid() calls of the source are modeled by explicit identifier parameters,
and the browser storage by an explicit map from keys to stored values.
-/

namespace FormApp

/-- A field descriptor as produced by FieldEditor (App.js lines 16-51).
The options key is absent (none) until the enum options input is used;
type is one of "label", "text", "number", "boolean", "enum" but the code
stores it as a plain string. -/
structure Field where
  id : String
  type : String
  label : String
  options : Option (List String) := none
deriving DecidableEq, Repr, Inhabited

/-- A section: a titled ordered list of fields (App.js lines 53-96). -/
structure Section where
  id : String
  title : String
  fields : List Field
deriving DecidableEq, Repr, Inhabited

/-- A template: a named ordered list of sections (App.js lines 109-115). -/
structure Template where
  id : String
  name : String
  sections : List Section
deriving DecidableEq, Repr, Inhabited

/-- FieldEditor type select, App.js line 21:
onChange({ ...field, type: e.target.value }).  The spread copies every
other key, options included. -/
def setFieldType (f : Field) (v : String) : Field :=
  { f with type := v }

/-- FieldEditor label input, App.js line 34. -/
def setFieldLabel (f : Field) (v : String) : Field :=
  { f with label := v }

/-- FieldEditor enum options input, App.js line 42:
onChange({ ...field, options: e.target.value.split(",") }). -/
def setFieldOptions (f : Field) (v : String) : Field :=
  { f with options := some (v.splitOn ",") }

/-- Section.updateField, App.js lines 54-58: copy the field array and
overwrite position index.  The index always comes from mapping over the
field list, so it is in range. -/
def updateField (s : Section) (index : Nat) (updated : Field) : Section :=
  { s with fields := s.fields.set index updated }

/-- Section.deleteField, App.js lines 59-63: splice(index, 1) removes the
one element at the given position. -/
def deleteField (s : Section) (index : Nat) : Section :=
  { s with fields := s.fields.eraseIdx index }

/-- Section title input, App.js line 70:
onChange({ ...section, title: e.target.value }). -/
def setSectionTitle (s : Section) (v : String) : Section :=
  { s with title := v }

/-- Add Field button, App.js lines 82-90: append a field with a fresh
uuid(), type "text" and empty label.  The generated uuid is the newId
parameter. -/
def addField (s : Section) (newId : String) : Section :=
  { s with
    fields := s.fields ++ [{ id := newId, type := "text", label := "", options := none }] }

/-- The answer mapping of DynamicForm is a JS object keyed by field id;
answers are strings (text, number, enum inputs) or booleans (checkbox). -/
inductive Answer where
  | str : String → Answer
  | bool : Bool → Answer
deriving DecidableEq, Repr

/-- DynamicForm handleChange, App.js lines 187-189:
setFormData({ ...formData, [fieldId]: value }).  JS object spread with a
computed key: an existing key keeps its position and receives the new
value, a new key is appended at the end. -/
def setAnswer (m : List (String × Answer)) (fieldId : String) (value : Answer) :
    List (String × Answer) :=
  match m with
  | [] => [(fieldId, value)]
  | (k, w) :: rest =>
      if k = fieldId then (k, value) :: rest else (k, w) :: setAnswer rest fieldId value

/-- Reading one key of a JS object: the value at the first matching key. -/
def lookupAnswer (m : List (String × Answer)) (fieldId : String) : Option Answer :=
  match m with
  | [] => none
  | (k, w) :: rest => if k = fieldId then some w else lookupAnswer rest fieldId

theorem lookupAnswer_setAnswer_self (m : List (String × Answer)) (f : String) (v : Answer) :
    lookupAnswer (setAnswer m f v) f = some v := by
  induction m with
  | nil => simp [setAnswer, lookupAnswer]
  | cons hd tl ih =>
      obtain ⟨k, w⟩ := hd
      by_cases hk : k = f
      · simp [setAnswer, lookupAnswer, hk]
      · simp [setAnswer, lookupAnswer, hk, ih]

theorem lookupAnswer_setAnswer_other (m : List (String × Answer)) (f g : String) (v : Answer)
    (hg : g ≠ f) : lookupAnswer (setAnswer m f v) g = lookupAnswer m g := by
  have hfg : f ≠ g := Ne.symm hg
  induction m with
  | nil => simp [setAnswer, lookupAnswer, hfg]
  | cons hd tl ih =>
      obtain ⟨k, w⟩ := hd
      by_cases hk : k = f
      · subst hk
        simp [setAnswer, lookupAnswer, hfg]
      · by_cases hkg : k = g
        · subst hkg
          simp [setAnswer, lookupAnswer, hk, hg]
        · simp [setAnswer, lookupAnswer, hk, hkg, ih]

/-- C10: recording an answer for field id f with value v sets the entry for
f to v and leaves the answer of every other field id unchanged. -/
theorem setAnswer_frame (m : List (String × Answer)) (f g : String) (v : Answer)
    (hg : g ≠ f) :
    lookupAnswer (setAnswer m f v) f = some v ∧
    lookupAnswer (setAnswer m f v) g = lookupAnswer m g :=
  ⟨lookupAnswer_setAnswer_self m f v, lookupAnswer_setAnswer_other m f g v hg⟩

/-- Witness for setAnswer_frame at a concrete mapping. -/
theorem setAnswer_frame_witness :
    lookupAnswer (setAnswer [("a", Answer.str "x")] "b" (Answer.str "y")) "b"
        = some (Answer.str "y") ∧
    lookupAnswer (setAnswer [("a", Answer.str "x")] "b" (Answer.str "y")) "a"
        = lookupAnswer [("a", Answer.str "x")] "a" :=
  setAnswer_frame [("a", Answer.str "x")] "b" "a" (Answer.str "y") (by decide)

/-- A concrete enum field used by witnesses. -/
def enumFieldEx : Field :=
  { id := "f1", type := "enum", label := "L", options := some ["a", "b"] }

/-- C9: changing the type of an enum field to any non-enum type keeps its
options value unchanged (the dead data is retained, not cleared). -/
theorem setFieldType_keeps_options (f : Field) (v : Option (List String)) (ty : String)
    (htype : f.type = "enum") (hopts : f.options = v) (hne : ty ≠ "enum") :
    (setFieldType f ty).options = v := by
  simpa [setFieldType] using hopts

/-- Witness for setFieldType_keeps_options at a concrete enum field. -/
theorem setFieldType_keeps_options_witness :
    (setFieldType enumFieldEx "text").options = some ["a", "b"] :=
  setFieldType_keeps_options enumFieldEx (some ["a", "b"]) "text" rfl rfl (by decide)

/-- A concrete section with one field, used by witnesses. -/
def sectionEx1 : Section :=
  { id := "s1", title := "T",
    fields := [{ id := "f1", type := "number", label := "n", options := none }] }

/-- A concrete section with three fields, used by witnesses. -/
def sectionEx3 : Section :=
  { id := "s1", title := "T",
    fields := [{ id := "a", type := "text", label := "", options := none },
               { id := "b", type := "number", label := "", options := none },
               { id := "c", type := "boolean", label := "", options := none }] }

/-- C6: Add Field appends exactly one new field at the end, with the fresh
identifier, type "text" and empty label; existing fields are unchanged and
in order, and id uniqueness of the field list is preserved. -/
theorem addField_appends (s : Section) (newId : String)
    (hfresh : newId ∉ s.fields.map Field.id)
    (hnodup : (s.fields.map Field.id).Nodup) :
    (addField s newId).fields
        = s.fields ++ [{ id := newId, type := "text", label := "", options := none }] ∧
    (addField s newId).fields.length = s.fields.length + 1 ∧
    ((addField s newId).fields.map Field.id).Nodup := by
  refine ⟨rfl, by simp [addField], ?_⟩
  simp only [addField, List.map_append, List.map_cons, List.map_nil]
  refine List.Nodup.append hnodup (List.nodup_singleton _) ?_
  intro x hx hx2
  simp at hx2
  exact hfresh (hx2 ▸ hx)

/-- Witness for addField_appends at a concrete section. -/
theorem addField_appends_witness :
    (addField sectionEx1 "f2").fields
        = sectionEx1.fields ++ [{ id := "f2", type := "text", label := "", options := none }] ∧
    (addField sectionEx1 "f2").fields.length = sectionEx1.fields.length + 1 ∧
    ((addField sectionEx1 "f2").fields.map Field.id).Nodup :=
  addField_appends sectionEx1 "f2" (by decide) (by decide)

/-- C7: deleting the field at position i from a section with i in range
removes exactly that field: the result is the fields before i followed by
the fields after i, in their original relative order, with length one
less. -/
theorem deleteField_removes_exactly (s : Section) (i : Nat) (hi : i < s.fields.length) :
    (deleteField s i).fields = s.fields.take i ++ s.fields.drop (i + 1) ∧
    (deleteField s i).fields.length = s.fields.length - 1 := by
  constructor
  · simp [deleteField, List.eraseIdx_eq_take_drop_succ]
  · simp [deleteField, List.length_eraseIdx, hi]

/-- Witness for deleteField_removes_exactly at a concrete section. -/
theorem deleteField_removes_exactly_witness :
    (deleteField sectionEx3 1).fields
        = sectionEx3.fields.take 1 ++ sectionEx3.fields.drop 2 ∧
    (deleteField sectionEx3 1).fields.length = sectionEx3.fields.length - 1 :=
  deleteField_removes_exactly sectionEx3 1 (by decide)

/-- The TemplateBuilder component state (App.js lines 98-103): the full
template set and the currently selected template (null at startup). -/
structure BuilderState where
  templates : List Template
  currentTemplate : Option Template
deriving DecidableEq, Repr

/-- createTemplate, App.js lines 109-118: early return when 5 templates
already exist; otherwise append a new template with one default section
and select it.  The two uuid() calls are the tid and sid parameters. -/
def createTemplate (s : BuilderState) (tid sid : String) : BuilderState :=
  if 5 ≤ s.templates.length then s
  else
    let newTemplate : Template :=
      { id := tid, name := "Template " ++ toString (s.templates.length + 1),
        sections := [{ id := sid, title := "Section 1", fields := [] }] }
    { templates := s.templates ++ [newTemplate], currentTemplate := some newTemplate }

/-- updateSection, App.js lines 120-129: overwrite the section at the given
index both in the selected template and, by id match, in the template set.
The handler is only reachable while a template is selected (line 149), so
the none case leaves the state unchanged. -/
def updateSection (s : BuilderState) (index : Nat) (updated : Section) : BuilderState :=
  match s.currentTemplate with
  | none => s
  | some ct =>
      let updatedSections := ct.sections.set index updated
      { templates := s.templates.map
          (fun t => if t.id = ct.id then { t with sections := updatedSections } else t),
        currentTemplate := some { ct with sections := updatedSections } }

/-- Add Section button, App.js lines 158-177: append an empty section to
the selected template and, by id match, to the template set.  The uuid()
call is the sid parameter; only reachable while a template is selected. -/
def addSection (s : BuilderState) (sid : String) : BuilderState :=
  match s.currentTemplate with
  | none => s
  | some ct =>
      let updatedSections := ct.sections ++ [{ id := sid, title := "", fields := [] }]
      { templates := s.templates.map
          (fun t => if t.id = ct.id then { t with sections := updatedSections } else t),
        currentTemplate := some { ct with sections := updatedSections } }

/-- Template selection buttons, App.js lines 138-146: selecting the
template at a position of the list; out of range leaves the state
unchanged (no such button is rendered). -/
def selectTemplate (s : BuilderState) (index : Nat) : BuilderState :=
  match s.templates[index]? with
  | some t => { s with currentTemplate := some t }
  | none => s

/-- One user operation on the TemplateBuilder. -/
inductive BuilderOp where
  | create : String → String → BuilderOp
  | update : Nat → Section → BuilderOp
  | addSec : String → BuilderOp
  | select : Nat → BuilderOp
deriving DecidableEq, Repr

/-- The effect of one builder operation on the builder state. -/
def step (s : BuilderState) (op : BuilderOp) : BuilderState :=
  match op with
  | .create tid sid => createTemplate s tid sid
  | .update i sec => updateSection s i sec
  | .addSec sid => addSection s sid
  | .select i => selectTemplate s i

theorem step_length_le (s : BuilderState) (op : BuilderOp)
    (h : s.templates.length ≤ 5) : (step s op).templates.length ≤ 5 := by
  cases op with
  | create tid sid =>
      by_cases h5 : 5 ≤ s.templates.length
      · simpa [step, createTemplate, h5] using h
      · simp [step, createTemplate, h5]
        omega
  | update i sec =>
      cases hc : s.currentTemplate with
      | none => simpa [step, updateSection, hc] using h
      | some ct => simpa [step, updateSection, hc] using h
  | addSec sid =>
      cases hc : s.currentTemplate with
      | none => simpa [step, addSection, hc] using h
      | some ct => simpa [step, addSection, hc] using h
  | select i =>
      cases ht : s.templates[i]? with
      | none => simpa [step, selectTemplate, ht] using h
      | some t => simpa [step, selectTemplate, ht] using h

theorem foldl_step_length_le (ops : List BuilderOp) (s : BuilderState)
    (h : s.templates.length ≤ 5) : (ops.foldl step s).templates.length ≤ 5 := by
  induction ops generalizing s with
  | nil => simpa using h
  | cons op rest ih => exact ih (step s op) (step_length_le s op h)

/-- C1: with 5 or more templates, Create New Template leaves the state
unchanged; with fewer than 5 it appends exactly one new template holding
one default section and selects it; hence the template count stays at most
5 along every operation sequence that starts with at most 5 templates. -/
theorem createTemplate_cap (sFull sFree s0 : BuilderState) (tid sid : String)
    (ops : List BuilderOp)
    (hFull : 5 ≤ sFull.templates.length) (hFree : sFree.templates.length < 5)
    (h0 : s0.templates.length ≤ 5) :
    createTemplate sFull tid sid = sFull ∧
    (createTemplate sFree tid sid).templates
        = sFree.templates ++
          [{ id := tid, name := "Template " ++ toString (sFree.templates.length + 1),
             sections := [{ id := sid, title := "Section 1", fields := [] }] }] ∧
    (createTemplate sFree tid sid).currentTemplate
        = some { id := tid, name := "Template " ++ toString (sFree.templates.length + 1),
                 sections := [{ id := sid, title := "Section 1", fields := [] }] } ∧
    (ops.foldl step s0).templates.length ≤ 5 := by
  refine ⟨by simp [createTemplate, hFull], ?_, ?_, foldl_step_length_le ops s0 h0⟩
  · simp [createTemplate, Nat.not_le.mpr hFree]
  · simp [createTemplate, Nat.not_le.mpr hFree]

/-- A concrete one-template builder state used by witnesses. -/
def builderStateEx : BuilderState :=
  { templates := [{ id := "t1", name := "Template 1", sections := [sectionEx1] }],
    currentTemplate := some { id := "t1", name := "Template 1", sections := [sectionEx1] } }

/-- A concrete full (five-template) builder state used by witnesses. -/
def builderStateFull : BuilderState :=
  { templates :=
      [{ id := "t1", name := "Template 1", sections := [] },
       { id := "t2", name := "Template 2", sections := [] },
       { id := "t3", name := "Template 3", sections := [] },
       { id := "t4", name := "Template 4", sections := [] },
       { id := "t5", name := "Template 5", sections := [] }],
    currentTemplate := none }

/-- Witness for createTemplate_cap at concrete states. -/
theorem createTemplate_cap_witness :
    createTemplate builderStateFull "t6" "s6" = builderStateFull ∧
    (createTemplate builderStateEx "t6" "s6").templates
        = builderStateEx.templates ++
          [{ id := "t6", name := "Template " ++ toString (builderStateEx.templates.length + 1),
             sections := [{ id := "s6", title := "Section 1", fields := [] }] }] ∧
    (createTemplate builderStateEx "t6" "s6").currentTemplate
        = some { id := "t6", name := "Template " ++ toString (builderStateEx.templates.length + 1),
                 sections := [{ id := "s6", title := "Section 1", fields := [] }] } ∧
    (([BuilderOp.create "a" "b", BuilderOp.addSec "c"].foldl step builderStateEx)).templates.length ≤ 5 :=
  createTemplate_cap builderStateFull builderStateEx builderStateEx "t6" "s6"
    [BuilderOp.create "a" "b", BuilderOp.addSec "c"]
    (by decide) (by decide) (by decide)

/-- C2: a section edit through the builder (updateSection at any index, and
Add Section) gives the selected template and every template-set entry whose
id matches the selected template the same updated section sequence. -/
theorem dual_update_consistent (s : BuilderState) (ct : Template) (i : Nat)
    (sec : Section) (sid : String) (u a : Template)
    (hct : s.currentTemplate = some ct)
    (hu : u ∈ (updateSection s i sec).templates) (hu2 : u.id = ct.id)
    (ha : a ∈ (addSection s sid).templates) (ha2 : a.id = ct.id) :
    (updateSection s i sec).currentTemplate
        = some { ct with sections := ct.sections.set i sec } ∧
    u.sections = ct.sections.set i sec ∧
    (addSection s sid).currentTemplate
        = some { ct with sections := ct.sections ++ [{ id := sid, title := "", fields := [] }] } ∧
    a.sections = ct.sections ++ [{ id := sid, title := "", fields := [] }] := by
  refine ⟨by simp [updateSection, hct], ?_, by simp [addSection, hct], ?_⟩
  · simp only [updateSection, hct] at hu
    rw [List.mem_map] at hu
    obtain ⟨t, ht, heq⟩ := hu
    by_cases hid : t.id = ct.id
    · rw [← heq]
      simp [hid]
    · rw [← heq] at hu2
      simp [hid] at hu2
  · simp only [addSection, hct] at ha
    rw [List.mem_map] at ha
    obtain ⟨t, ht, heq⟩ := ha
    by_cases hid : t.id = ct.id
    · rw [← heq]
      simp [hid]
    · rw [← heq] at ha2
      simp [hid] at ha2

/-- The selected template of the witness builder state. -/
def templateEx : Template :=
  { id := "t1", name := "Template 1", sections := [sectionEx1] }

/-- Witness for dual_update_consistent at a concrete state. -/
theorem dual_update_consistent_witness :
    (updateSection builderStateEx 0 (setSectionTitle sectionEx1 "New")).currentTemplate
        = some { templateEx with
                 sections := templateEx.sections.set 0 (setSectionTitle sectionEx1 "New") } ∧
    ({ id := "t1", name := "Template 1",
       sections := [setSectionTitle sectionEx1 "New"] } : Template).sections
        = templateEx.sections.set 0 (setSectionTitle sectionEx1 "New") ∧
    (addSection builderStateEx "s9").currentTemplate
        = some { templateEx with
                 sections := templateEx.sections ++ [{ id := "s9", title := "", fields := [] }] } ∧
    ({ id := "t1", name := "Template 1",
       sections := [sectionEx1, { id := "s9", title := "", fields := [] }] } : Template).sections
        = templateEx.sections ++ [{ id := "s9", title := "", fields := [] }] :=
  dual_update_consistent builderStateEx templateEx 0 (setSectionTitle sectionEx1 "New") "s9"
    { id := "t1", name := "Template 1", sections := [setSectionTitle sectionEx1 "New"] }
    { id := "t1", name := "Template 1",
      sections := [sectionEx1, { id := "s9", title := "", fields := [] }] }
    rfl (by decide) rfl (by decide) rfl

/-- Editing the title of the section at position i of the selected
template: the Section title input (App.js line 70) fires with the section
taken from the selected template, and the builder applies updateSection at
that position (App.js line 155). -/
def editSectionTitle (s : BuilderState) (i : Nat) (v : String) : BuilderState :=
  match s.currentTemplate with
  | none => s
  | some ct => updateSection s i (setSectionTitle (ct.sections.getD i default) v)

/-- C8: editing one section title only retitles that section: the selected
template keeps its id, name and all other sections, and the edited section
keeps its id and all its fields, only its title becoming the new value. -/
theorem editSectionTitle_frame (s : BuilderState) (ct : Template) (i : Nat) (v : String)
    (hct : s.currentTemplate = some ct) (hi : i < ct.sections.length) :
    (editSectionTitle s i v).currentTemplate
        = some { ct with
                 sections := ct.sections.take i ++
                   setSectionTitle ct.sections[i] v :: ct.sections.drop (i + 1) } ∧
    (setSectionTitle ct.sections[i] v).id = ct.sections[i].id ∧
    (setSectionTitle ct.sections[i] v).fields = ct.sections[i].fields ∧
    (setSectionTitle ct.sections[i] v).title = v := by
  refine ⟨?_, rfl, rfl, rfl⟩
  simp only [editSectionTitle, hct, updateSection, List.getD_eq_getElem ct.sections default hi]
  rw [List.set_eq_take_cons_drop _ hi]

/-- Witness for editSectionTitle_frame at a concrete state. -/
theorem editSectionTitle_frame_witness :
    (editSectionTitle builderStateEx 0 "Retitled").currentTemplate
        = some { templateEx with
                 sections := templateEx.sections.take 0 ++
                   setSectionTitle templateEx.sections[0] "Retitled" ::
                     templateEx.sections.drop 1 } ∧
    (setSectionTitle templateEx.sections[0] "Retitled").id = templateEx.sections[0].id ∧
    (setSectionTitle templateEx.sections[0] "Retitled").fields = templateEx.sections[0].fields ∧
    (setSectionTitle templateEx.sections[0] "Retitled").title = "Retitled" :=
  editSectionTitle_frame builderStateEx templateEx 0 "Retitled" rfl (by decide)

/-- A JSON value, the value space of the browser serialization layer.  The
app only ever stores strings, booleans, arrays and objects (numbers never
reach storage: number inputs report their value as a string). -/
inductive Json where
  | null : Json
  | str : String → Json
  | bool : Bool → Json
  | arr : List Json → Json
  | obj : List (String × Json) → Json

/-- What a localStorage key can hold, as seen through JSON.parse: ser j is
the text JSON.stringify produced for the value j (JSON.parse maps it back
to j), and corrupt s is any other stored text, which JSON.parse rejects
with an exception.  JSON.stringify never produces such a text. -/
inductive StoredVal where
  | ser : Json → StoredVal
  | corrupt : String → StoredVal

/-- The browser key-value store: a map from key strings to stored text. -/
def Store : Type := String → Option StoredVal

/-- localStorage.setItem. -/
def Store.set (st : Store) (k : String) (v : StoredVal) : Store :=
  fun k2 => if k2 = k then some v else st k2

/-- Template load at startup, App.js lines 99-102 (also 257-260):
stored ? JSON.parse(stored) : [].  A missing key (getItem gives null) and
the stored empty string are falsy and give the array literal []; any other
stored text goes through JSON.parse, which throws on a corrupt value, and
there is no try/catch, so the exception reaches the caller (modeled as
Except.error). -/
def loadTemplatesJson (st : Store) : Except Unit Json :=
  match st "templates" with
  | none => .ok (Json.arr [])
  | some (.ser j) => .ok j
  | some (.corrupt s) => if s = "" then .ok (Json.arr []) else .error ()

/-- Submission-log read on submit, App.js line 193:
JSON.parse(localStorage.getItem(key) || "[]").  A missing key or stored
empty string is replaced by the text "[]", which parses to the empty
array; a corrupt stored value makes JSON.parse throw, uncaught. -/
def readLog (st : Store) (templateId : String) : Except Unit Json :=
  match st ("form_data_" ++ templateId) with
  | none => .ok (Json.arr [])
  | some (.ser j) => .ok j
  | some (.corrupt s) => if s = "" then .ok (Json.arr []) else .error ()

/-- The JSON value JSON.stringify reads off a Field object: the id, type
and label keys, and the options key only when the field has one (an absent
JS object key is skipped by JSON.stringify). -/
def encodeField (f : Field) : Json :=
  Json.obj ([("id", Json.str f.id), ("type", Json.str f.type), ("label", Json.str f.label)]
    ++ (match f.options with
        | none => []
        | some os => [("options", Json.arr (os.map Json.str))]))

/-- The JSON value JSON.stringify reads off a Section object. -/
def encodeSection (s : Section) : Json :=
  Json.obj [("id", Json.str s.id), ("title", Json.str s.title),
            ("fields", Json.arr (s.fields.map encodeField))]

/-- The JSON value JSON.stringify reads off a Template object. -/
def encodeTemplate (t : Template) : Json :=
  Json.obj [("id", Json.str t.id), ("name", Json.str t.name),
            ("sections", Json.arr (t.sections.map encodeSection))]

/-- The JSON value stored under the key "templates" (App.js line 106). -/
def encodeTemplates (ts : List Template) : Json :=
  Json.arr (ts.map encodeTemplate)

/-- Key lookup in a JSON object (JS property access on a parsed value). -/
def jLookup (kvs : List (String × Json)) (k : String) : Option Json :=
  match kvs with
  | [] => none
  | (k2, v) :: rest => if k2 = k then some v else jLookup rest k

/-- Decode every element of a JSON array, failing if any element fails. -/
def decodeListWith {α : Type} (dec : Json → Option α) : List Json → Option (List α)
  | [] => some []
  | j :: rest =>
      match dec j, decodeListWith dec rest with
      | some a, some as => some (a :: as)
      | _, _ => none

def decodeStr : Json → Option String
  | .str s => some s
  | _ => none

/-- Reading a parsed JSON value back as a Field. -/
def decodeField (j : Json) : Option Field :=
  match j with
  | .obj kvs =>
      match jLookup kvs "id", jLookup kvs "type", jLookup kvs "label" with
      | some (.str i), some (.str ty), some (.str lb) =>
          match jLookup kvs "options" with
          | none => some { id := i, type := ty, label := lb, options := none }
          | some oj =>
              match oj with
              | .arr xs =>
                  match decodeListWith decodeStr xs with
                  | some os => some { id := i, type := ty, label := lb, options := some os }
                  | none => none
              | _ => none
      | _, _, _ => none
  | _ => none

/-- Reading a parsed JSON value back as a Section. -/
def decodeSection (j : Json) : Option Section :=
  match j with
  | .obj kvs =>
      match jLookup kvs "id", jLookup kvs "title", jLookup kvs "fields" with
      | some (.str i), some (.str t), some (.arr fs) =>
          match decodeListWith decodeField fs with
          | some flds => some { id := i, title := t, fields := flds }
          | none => none
      | _, _, _ => none
  | _ => none

/-- Reading a parsed JSON value back as a Template. -/
def decodeTemplate (j : Json) : Option Template :=
  match j with
  | .obj kvs =>
      match jLookup kvs "id", jLookup kvs "name", jLookup kvs "sections" with
      | some (.str i), some (.str n), some (.arr ss) =>
          match decodeListWith decodeSection ss with
          | some secs => some { id := i, name := n, sections := secs }
          | none => none
      | _, _, _ => none
  | _ => none

/-- Reading the parsed "templates" value back as the template list. -/
def decodeTemplates (j : Json) : Option (List Template) :=
  match j with
  | .arr xs => decodeListWith decodeTemplate xs
  | _ => none

/-- Template persistence, App.js lines 105-107: after every change the
whole template set is stringified and written under the key "templates". -/
def saveTemplates (st : Store) (ts : List Template) : Store :=
  Store.set st "templates" (.ser (encodeTemplates ts))

theorem decodeListWith_roundtrip {α : Type} (dec : Json → Option α) (enc : α → Json)
    (l : List α) (h : ∀ a ∈ l, dec (enc a) = some a) :
    decodeListWith dec (l.map enc) = some l := by
  induction l with
  | nil => rfl
  | cons hd tl ih =>
      have h1 : dec (enc hd) = some hd := h hd (by simp)
      have h2 : decodeListWith dec (tl.map enc) = some tl :=
        ih (fun a ha => h a (by simp [ha]))
      simp [decodeListWith, h1, h2]

theorem decodeField_encodeField (f : Field) : decodeField (encodeField f) = some f := by
  obtain ⟨i, ty, lb, opts⟩ := f
  cases opts with
  | none => simp [encodeField, decodeField, jLookup]
  | some os =>
      have hos : decodeListWith decodeStr (os.map Json.str) = some os :=
        decodeListWith_roundtrip decodeStr Json.str os (fun a _ => rfl)
      simp [encodeField, decodeField, jLookup, hos]

theorem decodeSection_encodeSection (s : Section) :
    decodeSection (encodeSection s) = some s := by
  obtain ⟨i, t, flds⟩ := s
  have hf : decodeListWith decodeField (flds.map encodeField) = some flds :=
    decodeListWith_roundtrip decodeField encodeField flds
      (fun a _ => decodeField_encodeField a)
  simp [encodeSection, decodeSection, jLookup, hf]

theorem decodeTemplate_encodeTemplate (t : Template) :
    decodeTemplate (encodeTemplate t) = some t := by
  obtain ⟨i, n, secs⟩ := t
  have hs : decodeListWith decodeSection (secs.map encodeSection) = some secs :=
    decodeListWith_roundtrip decodeSection encodeSection secs
      (fun a _ => decodeSection_encodeSection a)
  simp [encodeTemplate, decodeTemplate, jLookup, hs]

/-- C4: saving a template set and loading it back is the identity: the
startup read parses back exactly the serialized value, and that value
decodes to the very same template list, every id, name, section order,
field order and field content included. -/
theorem save_load_roundtrip (st : Store) (ts : List Template) :
    loadTemplatesJson (saveTemplates st ts) = Except.ok (encodeTemplates ts) ∧
    decodeTemplates (encodeTemplates ts) = some ts := by
  constructor
  · simp [loadTemplatesJson, saveTemplates, Store.set]
  · exact decodeListWith_roundtrip decodeTemplate encodeTemplate ts
      (fun a _ => decodeTemplate_encodeTemplate a)

/-- A store whose "templates" and "form_data_t1" keys hold corrupt,
non-deserializable text. -/
def corruptStore : Store :=
  fun k =>
    if k = "templates" then some (.corrupt "not-json")
    else if k = "form_data_t1" then some (.corrupt "oops") else none

/-- Counterexample to C3 as stated: at the corrupt store both load
operations propagate the JSON.parse exception instead of returning the
empty sequence. -/
theorem load_throws_on_corrupt :
    loadTemplatesJson corruptStore = Except.error () ∧
    readLog corruptStore "t1" = Except.error () := by
  constructor
  · rfl
  · rfl

/-- C3 as amended: a missing key makes both load operations return the
empty sequence without an error, but a corrupt non-empty stored value
makes the startup load (and likewise the log read) throw, since
JSON.parse runs with no try/catch. -/
theorem load_missing_falls_back (st1 st2 : Store) (tid s : String)
    (h1 : st1 "templates" = none) (h2 : st1 ("form_data_" ++ tid) = none)
    (h3 : st2 "templates" = some (.corrupt s)) (hs : s ≠ "") :
    loadTemplatesJson st1 = Except.ok (Json.arr []) ∧
    readLog st1 tid = Except.ok (Json.arr []) ∧
    loadTemplatesJson st2 = Except.error () := by
  refine ⟨?_, ?_, ?_⟩
  · simp [loadTemplatesJson, h1]
  · simp [readLog, h2]
  · simp [loadTemplatesJson, h3, hs]

/-- The empty store, used by witnesses. -/
def emptyStore : Store := fun _ => none

/-- Witness for load_missing_falls_back at concrete stores. -/
theorem load_missing_falls_back_witness :
    (loadTemplatesJson emptyStore = Except.ok (Json.arr []) ∧
     readLog emptyStore "t1" = Except.ok (Json.arr []) ∧
     loadTemplatesJson corruptStore = Except.error ()) :=
  load_missing_falls_back emptyStore corruptStore "t1" "not-json" rfl rfl rfl
    (by decide)

/-- The JSON value JSON.stringify reads off one answer: text, number and
enum inputs report strings, the checkbox reports a boolean. -/
def encodeAnswer : Answer → Json
  | .str s => Json.str s
  | .bool b => Json.bool b

/-- The JSON value JSON.stringify reads off the formData object. -/
def encodeAnswers (m : List (String × Answer)) : Json :=
  Json.obj (m.map (fun p => (p.1, encodeAnswer p.2)))

/-- DynamicForm handleSubmit, App.js lines 191-197: read the existing log
for this template, append the current answer object, rewrite the whole
log, notify the user (alert, no state effect) and clear the in-memory
answers.  The result is the new store and the cleared answer mapping;
Except.error is the uncaught JSON.parse exception, or the spread of a
parsed non-array value (not iterable). -/
def handleSubmit (st : Store) (template : Template)
    (formData : List (String × Answer)) :
    Except Unit (Store × List (String × Answer)) :=
  match readLog st template.id with
  | .error e => .error e
  | .ok prev =>
      match prev with
      | .arr entries =>
          .ok (Store.set st ("form_data_" ++ template.id)
                (.ser (Json.arr (entries ++ [encodeAnswers formData]))), [])
      | _ => .error ()

/-- C5: whenever the stored log for the template parses to a sequence,
submitting appends exactly the current answer object at its end, leaves
the prior entries unchanged and in order, stores the result under
form_data_<template-id>, and clears the in-memory answers. -/
theorem handleSubmit_appends (st : Store) (t : Template)
    (fd : List (String × Answer)) (log : List Json)
    (h : readLog st t.id = Except.ok (Json.arr log)) :
    handleSubmit st t fd
        = Except.ok (Store.set st ("form_data_" ++ t.id)
            (StoredVal.ser (Json.arr (log ++ [encodeAnswers fd]))), []) ∧
    (Store.set st ("form_data_" ++ t.id)
        (StoredVal.ser (Json.arr (log ++ [encodeAnswers fd])))) ("form_data_" ++ t.id)
        = some (StoredVal.ser (Json.arr (log ++ [encodeAnswers fd]))) := by
  constructor
  · simp [handleSubmit, h]
  · simp [Store.set]

/-- Witness for handleSubmit_appends: submitting the answers
field1 = "hello" with an empty store appends exactly that one entry. -/
theorem handleSubmit_appends_witness :
    handleSubmit emptyStore templateEx [("field1", Answer.str "hello")]
        = Except.ok (Store.set emptyStore ("form_data_" ++ templateEx.id)
            (StoredVal.ser (Json.arr
              ([] ++ [encodeAnswers [("field1", Answer.str "hello")]]))), []) ∧
    (Store.set emptyStore ("form_data_" ++ templateEx.id)
        (StoredVal.ser (Json.arr
          ([] ++ [encodeAnswers [("field1", Answer.str "hello")]]))))
        ("form_data_" ++ templateEx.id)
        = some (StoredVal.ser (Json.arr
            ([] ++ [encodeAnswers [("field1", Answer.str "hello")]]))) :=
  handleSubmit_appends emptyStore templateEx [("field1", Answer.str "hello")] [] rfl

end FormApp
